import Mathlib

/-!
Shallow embedding of the `dmg` crate (macOS disk-image attach/create/detach
wrappers around the `hdiutil` command), covering:

* the plist response decoder of `Attach::attach_info` (src/attach.rs and the
  historical snapshot in src/lib.rs),
* the argument-list rendering of `Attach::attach_info`, `FromFolder::create`
  and `detach`,
* the error handling on non-zero exit status of the spawned process,
* the `Drop` implementation of `With`.

External collaborators are modelled at their call/response boundary: the
`plist` library's parse step is an `Option Value` input (`Value::from_reader`
either yields a value or fails), `String::from_utf8` on the captured stderr
is a `Utf8Result` input, and the spawned process is a `ProcOutput` input.
The branching on those inputs is transcribed from the repository's source.

Paths (`PathBuf`, `OsString`) are modelled as `String`.
-/

namespace Dmg

/-- `io::ErrorKind` values used by the crate. -/
inductive ErrorKind where
  | InvalidData
  | Other
  deriving DecidableEq, Repr

/-- Result of an `io::Result` returning code path, extended with a `panic`
outcome so that panicking evaluations (e.g. indexing a `plist::Dictionary`
with a missing key, or `.expect(..)` in `Drop`) are observable. -/
inductive IOResult (α : Type) where
  | ok (a : α)
  | err (kind : ErrorKind) (msg : String)
  | panic
  deriving DecidableEq, Repr

/-- `plist::Value`: the structured property-list value. The scalar
constructors other than `string` (`integer`, `boolean`, and `other` standing
for Data/Date/Real/Uid) all behave identically under `as_dictionary`,
`as_array` and `as_string` (they return `None`). -/
inductive Value where
  | string (s : String)
  | integer (n : Int)
  | boolean (b : Bool)
  | other
  | array (elems : List Value)
  | dict (entries : List (String × Value))

/-- A `plist::Dictionary`, modelled as an association list. -/
abbrev Dictionary := List (String × Value)

/-- `plist::Dictionary::get`. -/
def dictGet (d : Dictionary) (k : String) : Option Value :=
  (d.find? (fun p => p.1 == k)).map Prod.snd

/-- `plist::Value::as_dictionary`. -/
def Value.as_dictionary : Value → Option Dictionary
  | .dict entries => some entries
  | _ => none

/-- `plist::Value::as_array`. -/
def Value.as_array : Value → Option (List Value)
  | .array elems => some elems
  | _ => none

/-- `plist::Value::as_string`. -/
def Value.as_string : Value → Option String
  | .string s => some s
  | _ => none

/-- `dmg::attach::Info` (= `dmg::Info` in the lib.rs snapshot): mount point
and device node of an attached image. -/
structure Info where
  mount_point : String
  device : String
  deriving DecidableEq, Repr

/-- The entity-scanning loop of `Attach::attach_info` in src/attach.rs
(lines 207-217): for each element of the `system-entities` array, require it
to be a dictionary (`check!(entity.as_dictionary())`); if it has a
`mount-point` key, build the `Info`, where `check!` on a failed `as_string`
returns the `InvalidData`/"could not find property" error and
`properties["dev-entry"]` panics when the key is absent (the `Index`
implementation of `plist::Dictionary` returns `&Value` and so must panic on
a missing key). Struct fields are evaluated in written order: `mount_point`
first, then `device`. If no entity has a `mount-point` key the loop falls
through to the `Other`/"could not extract data" error. -/
def findInfo : List Value → IOResult Info
  | [] => .err .Other "could not extract data"
  | entity :: rest =>
    match entity.as_dictionary with
    | none => .err .InvalidData "could not find property"
    | some properties =>
      match dictGet properties "mount-point" with
      | none => findInfo rest
      | some mount_point =>
        match mount_point.as_string with
        | none => .err .InvalidData "could not find property"
        | some mp =>
          match dictGet properties "dev-entry" with
          | none => .panic
          | some dev =>
            match dev.as_string with
            | none => .err .InvalidData "could not find property"
            | some d => .ok ⟨mp, d⟩

/-- The plist-decoding stage of `Attach::attach_info` in src/attach.rs
(lines 204-222). The input is the outcome of
`Value::from_reader(Cursor::new(output.stdout))`: `none` models a parse
failure (the `if let Ok(plist)` falls through to the
`InvalidData`/"could not parse plist" error). -/
def attach_info_decode : Option Value → IOResult Info
  | none => .err .InvalidData "could not parse plist"
  | some plist =>
    match plist.as_dictionary with
    | none => .err .InvalidData "could not find property"
    | some root =>
      match dictGet root "system-entities" with
      | none => .err .InvalidData "could not find property"
      | some se =>
        match se.as_array with
        | none => .err .InvalidData "could not find property"
        | some entities => findInfo entities

/-- The entity-scanning loop of the historical `Attach::attach_info` in
src/lib.rs (lines 227-236), transcribed from that file. -/
def libFindInfo : List Value → IOResult Info
  | [] => .err .Other "could not extract data"
  | entity :: rest =>
    match entity.as_dictionary with
    | none => .err .InvalidData "could not find property"
    | some properties =>
      match dictGet properties "mount-point" with
      | none => libFindInfo rest
      | some mount_point =>
        match mount_point.as_string with
        | none => .err .InvalidData "could not find property"
        | some mp =>
          match dictGet properties "dev-entry" with
          | none => .panic
          | some dev =>
            match dev.as_string with
            | none => .err .InvalidData "could not find property"
            | some d => .ok ⟨mp, d⟩

/-- The plist-decoding stage of the historical `Attach::attach_info` in
src/lib.rs (lines 225-239), transcribed from that file. -/
def lib_attach_info_decode : Option Value → IOResult Info
  | none => .err .InvalidData "could not parse plist"
  | some plist =>
    match plist.as_dictionary with
    | none => .err .InvalidData "could not find property"
    | some root =>
      match dictGet root "system-entities" with
      | none => .err .InvalidData "could not find property"
      | some se =>
        match se.as_array with
        | none => .err .InvalidData "could not find property"
        | some entities => libFindInfo entities

/-- The `Mount` enum of src/attach.rs. -/
inductive Mount where
  | Default
  | Random (path : String)
  | Root (path : String)
  | Point (path : String)
  deriving DecidableEq, Repr

/-- The `Attach` builder struct. -/
structure Attach where
  image : String
  mount : Mount
  hidden : Bool
  force_readonly : Bool
  deriving DecidableEq, Repr

/-- `Attach::new`. -/
def Attach.new (path : String) : Attach :=
  ⟨path, .Default, false, false⟩

/-- `Attach::mount_root` (generated by the `mount_fn!` macro). -/
def Attach.mount_root (self : Attach) (path : String) : Attach :=
  { self with mount := .Root path }

/-- `Attach::mount_point` (generated by the `mount_fn!` macro). -/
def Attach.mount_point (self : Attach) (path : String) : Attach :=
  { self with mount := .Point path }

/-- `Attach::mount_random` (generated by the `mount_fn!` macro). -/
def Attach.mount_random (self : Attach) (path : String) : Attach :=
  { self with mount := .Random path }

/-- `Attach::hidden`. -/
def Attach.set_hidden (self : Attach) : Attach :=
  { self with hidden := true }

/-- `Attach::force_readonly`. -/
def Attach.set_force_readonly (self : Attach) : Attach :=
  { self with force_readonly := true }

/-- `Attach::mount_temp`; the value of `std::env::temp_dir()` is passed in
as `tempDir`. The body is `self.mount_random(env::temp_dir())`. -/
def Attach.mount_temp (self : Attach) (tempDir : String) : Attach :=
  self.mount_random tempDir

/-- The argument list built by `Attach::attach_info` (src/attach.rs lines
159-187) through the successive `cmd.arg` calls, in source order: `attach`,
the mount-strategy flag and its path (nothing for `Mount::Default`),
`-readonly` when forced read-only, `-nobrowse` when hidden, then `-plist`
and the image path. -/
def Attach.attachArgs (self : Attach) : List String :=
  ["attach"]
    ++ (match self.mount with
        | .Default => []
        | .Random path => ["-mountrandom", path]
        | .Root path => ["-mountroot", path]
        | .Point path => ["-mountpoint", path])
    ++ (if self.force_readonly then ["-readonly"] else [])
    ++ (if self.hidden then ["-nobrowse"] else [])
    ++ ["-plist", self.image]

/-- Whether a rendered argument token is one of the three mount-strategy
flags. -/
def isMountFlag (s : String) : Bool :=
  s == "-mountrandom" || s == "-mountroot" || s == "-mountpoint"

/-- Number of mount-strategy flag tokens in an argument list. -/
def mountFlagCount (args : List String) : Nat :=
  args.countP (fun s => isMountFlag s)

/-- Outcome of `String::from_utf8(output.stderr)`: either the decoded text,
or a `FromUtf8Error` whose display text is `errMsg`. -/
inductive Utf8Result where
  | valid (s : String)
  | invalid (errMsg : String)
  deriving DecidableEq, Repr

/-- Captured outcome of the spawned `hdiutil` process, at the boundary the
crate observes it: exit-status success, the stderr bytes as seen through
`String::from_utf8`, and the stdout bytes as seen through
`Value::from_reader`. -/
structure ProcOutput where
  success : Bool
  stderrUtf8 : Utf8Result
  stdoutPlist : Option Value

/-- The post-spawn part of `Attach::attach_info` (src/attach.rs lines
193-222): on non-zero exit status, decode stderr (`map_err` turns an
invalid-UTF-8 stderr into an `Other` error carrying the `FromUtf8Error`
text) and fail with `Other`/"hdiutil attach failed: <stderr>"; on success,
run the plist decoder on stdout. -/
def attach_info_run (out : ProcOutput) : IOResult Info :=
  if !out.success then
    match out.stderrUtf8 with
    | .invalid e => .err .Other e
    | .valid stderr => .err .Other ("hdiutil attach failed: " ++ stderr)
  else
    attach_info_decode out.stdoutPlist

/-- The `FolderImageFormat` enum of src/create.rs (generated by the
`format_enum!` macro). -/
inductive FolderImageFormat where
  | UDRO
  | UDCO
  | UDZO
  | UDBZ
  | ULFO
  | ULMO
  | UFBI
  | IPOD
  | UDSB
  | UDSP
  | UDRW
  | UDTO
  | UNIV
  | SPARSEBUNDLE
  | SPARSE
  | UDIF
  deriving DecidableEq, Repr

/-- `FolderImageFormat::format_name` (the `format_enum!` macro renders each
variant with `stringify!`, i.e. the variant's own name). -/
def FolderImageFormat.format_name : FolderImageFormat → String
  | .UDRO => "UDRO"
  | .UDCO => "UDCO"
  | .UDZO => "UDZO"
  | .UDBZ => "UDBZ"
  | .ULFO => "ULFO"
  | .ULMO => "ULMO"
  | .UFBI => "UFBI"
  | .IPOD => "IPOD"
  | .UDSB => "UDSB"
  | .UDSP => "UDSP"
  | .UDRW => "UDRW"
  | .UDTO => "UDTO"
  | .UNIV => "UNIV"
  | .SPARSEBUNDLE => "SPARSEBUNDLE"
  | .SPARSE => "SPARSE"
  | .UDIF => "UDIF"

/-- All sixteen variants of `FolderImageFormat`, in source declaration
order. -/
def allFormats : List FolderImageFormat :=
  [.UDRO, .UDCO, .UDZO, .UDBZ, .ULFO, .ULMO, .UFBI, .IPOD,
   .UDSB, .UDSP, .UDRW, .UDTO, .UNIV, .SPARSEBUNDLE, .SPARSE, .UDIF]

/-- The `CommonOptions` struct of src/create.rs. -/
structure CommonOptions where
  overwrite : Bool
  volume_name : Option String
  deriving DecidableEq, Repr

/-- The `FromFolder` builder struct of src/create.rs. -/
structure FromFolder where
  common_options : CommonOptions
  source_folder : String
  spotlight : Bool
  any_owners : Bool
  skip_unreadable : Bool
  atomic : Bool
  format : FolderImageFormat
  deriving DecidableEq, Repr

/-- `FromFolder::new`. -/
def FromFolder.new (source_folder : String) : FromFolder :=
  { common_options := { overwrite := false, volume_name := none }
    source_folder := source_folder
    spotlight := false
    any_owners := false
    skip_unreadable := false
    atomic := true
    format := .UDZO }

/-- `apply_common_options` (src/create.rs lines 129-137): the arguments it
appends to the command. -/
def apply_common_options (options : CommonOptions) : List String :=
  (if options.overwrite then ["-ov"] else [])
    ++ (match options.volume_name with
        | some name => ["-volname", name]
        | none => [])

/-- `binary_option` (src/create.rs lines 139-145): the single argument it
appends, `-<option>` when enabled and `-no<option>` otherwise. -/
def binary_option (option : String) (enabled : Bool) : List String :=
  [if enabled then "-" ++ option else "-no" ++ option]

/-- The argument list built by `FromFolder::create` (src/create.rs lines
215-231) through the successive `cmd.arg` calls, in source order. -/
def FromFolder.createArgs (self : FromFolder) (image_path : String) : List String :=
  ["create"]
    ++ apply_common_options self.common_options
    ++ binary_option "spotlight" self.spotlight
    ++ binary_option "anyowners" self.any_owners
    ++ binary_option "skipunreadable" self.skip_unreadable
    ++ binary_option "atomic" self.atomic
    ++ ["-format", self.format.format_name]
    ++ ["-srcfolder", self.source_folder]
    ++ [image_path]

/-- The argument grammar the specification states for `create`, written from
the spec's words: `create [-ov]? [-volname name]?
-spotlight|-nospotlight -anyowners|-noanyowners
-skipunreadable|-noskipunreadable -atomic|-noatomic -format <name>
-srcfolder <source> <target>`, with each binary option always emitted in
exactly one polarity. -/
def specCreateArgs (self : FromFolder) (target : String) : List String :=
  ["create"]
    ++ (if self.common_options.overwrite then ["-ov"] else [])
    ++ (match self.common_options.volume_name with
        | some name => ["-volname", name]
        | none => [])
    ++ [if self.spotlight then "-spotlight" else "-nospotlight"]
    ++ [if self.any_owners then "-anyowners" else "-noanyowners"]
    ++ [if self.skip_unreadable then "-skipunreadable" else "-noskipunreadable"]
    ++ [if self.atomic then "-atomic" else "-noatomic"]
    ++ ["-format", self.format.format_name, "-srcfolder", self.source_folder, target]

/-- The post-spawn part of `FromFolder::create` (src/create.rs lines
236-245): on non-zero exit status, decode stderr (invalid UTF-8 becomes an
`Other` error carrying the `FromUtf8Error` text) and fail with
`Other`/"hdiutil create failed: <stderr>"; on success return `()`. -/
def create_run (out : ProcOutput) : IOResult Unit :=
  if !out.success then
    match out.stderrUtf8 with
    | .invalid e => .err .Other e
    | .valid stderr => .err .Other ("hdiutil create failed: " ++ stderr)
  else
    .ok ()

/-- The argument list built by the free function `detach` (src/attach.rs
lines 239-248): `detach`, `-force` when forced, then the path. Both stdout
and stderr of the child are redirected to `Stdio::null()` and never
captured. -/
def detachArgs (path : String) (force : Bool) : List String :=
  ["detach"] ++ (if force then ["-force"] else []) ++ [path]

/-- The post-spawn part of `detach` (src/attach.rs lines 251-261): the code
only inspects `cmd.status()`; `statusSuccess` is that status's `success()`.
On success return `()`, otherwise the fixed `Other`/"non-zero exit status
for detach" error — the stderr of the process was sent to `Stdio::null()`
and cannot appear in the error. -/
def detach_run (statusSuccess : Bool) : IOResult Unit :=
  if statusSuccess then .ok () else .err .Other "non-zero exit status for detach"

/-- Observable outcome of a `Drop` implementation: either the drop handler
returns normally, or it panics. -/
inductive DropOutcome where
  | returned
  | panicked
  deriving DecidableEq, Repr

/-- The detach calls `<With as Drop>::drop` performs (src/attach.rs lines
96-100), as (path, force) pairs: exactly the single call
`detach(&self.device, false)`. -/
def With.dropDetachCalls (info : Info) : List (String × Bool) :=
  [(info.device, false)]

/-- The outcome of `<With as Drop>::drop` as a function of the result of its
single `detach` call: `.expect("could not detach")` panics on any error and
returns normally on `Ok` (a panicking detach evaluation also propagates). -/
def With.dropOutcome : IOResult Unit → DropOutcome
  | .ok _ => .returned
  | .err _ _ => .panicked
  | .panic => .panicked

/-- The mount path stored in a `Mount` value is itself not one of the three
mount-strategy flag tokens. -/
def mountPathOk : Mount → Prop
  | .Default => True
  | .Random path => isMountFlag path = false
  | .Root path => isMountFlag path = false
  | .Point path => isMountFlag path = false

/-- The sixteen external format tokens listed in the specification, in the
specification's order. -/
def formatTokens : List String :=
  ["UDRO", "UDCO", "UDZO", "UDBZ", "ULFO", "ULMO", "UFBI", "IPOD",
   "UDSB", "UDSP", "UDRW", "UDTO", "UNIV", "SPARSEBUNDLE", "SPARSE", "UDIF"]

/-- An attach response whose only system entity has a `mount-point` key but
no `dev-entry` key. -/
def c1Plist : Value :=
  .dict [("system-entities", .array [.dict [("mount-point", .string "/Volumes/Test")]])]

/-- An attach response whose `system-entities` array is empty. -/
def c5Plist : Value :=
  .dict [("system-entities", .array [])]

/-- An attach response whose `system-entities` array starts with a scalar
followed by a fully populated entity mapping. -/
def c6Plist : Value :=
  .dict [("system-entities", .array
    [.string "junk",
     .dict [("mount-point", .string "/Volumes/Test"), ("dev-entry", .string "/dev/disk4")]])]

/-- Entities that are dictionaries without a `mount-point` key are skipped
by the scanning loop of `Attach::attach_info`. -/
theorem findInfo_skip (pre l : List Value)
    (hpre : ∀ e ∈ pre, ∃ d, e = Value.dict d ∧ dictGet d "mount-point" = none) :
    findInfo (pre ++ l) = findInfo l := by
  induction pre with
  | nil => rfl
  | cons e pre ih =>
    obtain ⟨d, he, hd⟩ := hpre e (List.mem_cons_self e pre)
    subst he
    simp only [List.cons_append, findInfo, Value.as_dictionary, hd]
    exact ih (fun x hx => hpre x (List.mem_cons_of_mem _ hx))

/-- The two scanning loops (src/lib.rs and src/attach.rs) agree on every
entity list. -/
theorem libFindInfo_eq_findInfo (l : List Value) : libFindInfo l = findInfo l := by
  induction l with
  | nil => rfl
  | cons e rest ih =>
    cases e with
    | string s => rfl
    | integer n => rfl
    | boolean b => rfl
    | other => rfl
    | array elems => rfl
    | dict props =>
      simp only [libFindInfo, findInfo, Value.as_dictionary]
      cases hmp : dictGet props "mount-point" with
      | none => exact ih
      | some mp => rfl

/-- The token `attach` is not a mount-strategy flag. -/
theorem isMountFlag_attach : isMountFlag "attach" = false := rfl

/-- The token `-readonly` is not a mount-strategy flag. -/
theorem isMountFlag_readonly : isMountFlag "-readonly" = false := rfl

/-- The token `-nobrowse` is not a mount-strategy flag. -/
theorem isMountFlag_nobrowse : isMountFlag "-nobrowse" = false := rfl

/-- The token `-plist` is not a mount-strategy flag. -/
theorem isMountFlag_plist : isMountFlag "-plist" = false := rfl

/-- The token `-mountrandom` is a mount-strategy flag. -/
theorem isMountFlag_mountrandom : isMountFlag "-mountrandom" = true := rfl

/-- The token `-mountroot` is a mount-strategy flag. -/
theorem isMountFlag_mountroot : isMountFlag "-mountroot" = true := rfl

/-- The token `-mountpoint` is a mount-strategy flag. -/
theorem isMountFlag_mountpoint : isMountFlag "-mountpoint" = true := rfl

/-- Claim C3: when a `With` handle goes out of scope, its `Drop`
implementation performs exactly one non-forced detach of its device, and if
that detach fails at that point the drop handler panics instead of
returning normally or swallowing the error. -/
theorem c3_with_drop (info : Info) (r : IOResult Unit) :
    With.dropDetachCalls info = [(info.device, false)] ∧
    (With.dropOutcome r = .panicked ↔ r ≠ .ok ()) := by
  refine ⟨rfl, ?_⟩
  cases r with
  | ok a => cases a; simp [With.dropOutcome]
  | err k m => simp [With.dropOutcome]
  | panic => simp [With.dropOutcome]

/-- Claim C7: for every `FromFolder` value, `create(targetPath)` renders the
argument list `create [-ov]? [-volname name]? -spotlight|-nospotlight
-anyowners|-noanyowners -skipunreadable|-noskipunreadable -atomic|-noatomic
-format <name> -srcfolder <source> <target>`, in that order, each of the
four binary options always emitted as either its positive or its negated
flag and never omitted. -/
theorem c7_create_args (self : FromFolder) (target : String) :
    self.createArgs target = specCreateArgs self target := by
  obtain ⟨⟨ov, vn⟩, src, sp, ao, sk, atm, fmt⟩ := self
  cases ov <;> cases vn <;> cases sp <;> cases ao <;> cases sk <;> cases atm <;> rfl

/-- Claim C8: the external format token rendered for each
`FolderImageFormat` variant is exactly the corresponding string in the list
UDRO, UDCO, UDZO, UDBZ, ULFO, ULMO, UFBI, IPOD, UDSB, UDSP, UDRW, UDTO,
UNIV, SPARSEBUNDLE, SPARSE, UDIF, and every listed token is produced by
some variant. -/
theorem c8_format_tokens :
    allFormats.map FolderImageFormat.format_name = formatTokens ∧
    ∀ t ∈ formatTokens, ∃ f : FolderImageFormat, f.format_name = t := by
  refine ⟨rfl, ?_⟩
  intro t ht
  simp only [formatTokens, List.mem_cons, List.not_mem_nil, or_false] at ht
  rcases ht with rfl|rfl|rfl|rfl|rfl|rfl|rfl|rfl|rfl|rfl|rfl|rfl|rfl|rfl|rfl|rfl
  exacts [⟨.UDRO, rfl⟩, ⟨.UDCO, rfl⟩, ⟨.UDZO, rfl⟩, ⟨.UDBZ, rfl⟩, ⟨.ULFO, rfl⟩,
    ⟨.ULMO, rfl⟩, ⟨.UFBI, rfl⟩, ⟨.IPOD, rfl⟩, ⟨.UDSB, rfl⟩, ⟨.UDSP, rfl⟩,
    ⟨.UDRW, rfl⟩, ⟨.UDTO, rfl⟩, ⟨.UNIV, rfl⟩, ⟨.SPARSEBUNDLE, rfl⟩,
    ⟨.SPARSE, rfl⟩, ⟨.UDIF, rfl⟩]

/-- Witness for C8 at the concrete token "SPARSEBUNDLE". -/
theorem c8_format_tokens_witness :
    ∃ f : FolderImageFormat, f.format_name = "SPARSEBUNDLE" :=
  c8_format_tokens.2 "SPARSEBUNDLE" (by decide)

/-- Claim C9: `mount_temp` produces exactly the same builder state as
`mount_random` applied to the same temp-directory value: the mount strategy
becomes `Random tempDir` and all other fields are unchanged. -/
theorem c9_mount_temp (tempDir : String) (a : Attach) :
    a.mount_temp tempDir = a.mount_random tempDir ∧
    (a.mount_temp tempDir).mount = Mount.Random tempDir ∧
    (a.mount_temp tempDir).image = a.image ∧
    (a.mount_temp tempDir).hidden = a.hidden ∧
    (a.mount_temp tempDir).force_readonly = a.force_readonly :=
  ⟨rfl, rfl, rfl, rfl, rfl⟩

/-- Claim C10: the response-decoding stage of the historical snapshot
(src/lib.rs) and of the current module (src/attach.rs) are extensionally
equal: on every parse outcome of the captured stdout bytes they return the
same result (both the same `Info`, or both the same error/panic). -/
theorem c10_decoders_equal (v : Option Value) :
    lib_attach_info_decode v = attach_info_decode v := by
  cases v with
  | none => rfl
  | some plist =>
    cases plist with
    | string s => rfl
    | integer n => rfl
    | boolean b => rfl
    | other => rfl
    | array elems => rfl
    | dict root =>
      simp only [lib_attach_info_decode, attach_info_decode, Value.as_dictionary]
      cases dictGet root "system-entities" with
      | none => rfl
      | some se =>
        cases se with
        | string s => rfl
        | integer n => rfl
        | boolean b => rfl
        | other => rfl
        | dict d => rfl
        | array entities =>
          simp only [Value.as_array]
          exact libFindInfo_eq_findInfo entities

/-- Claim C1 counterexample: on a response whose first (and only) system
entity has a `mount-point` key but no `dev-entry` key, the decoder panics
(`plist::Dictionary` indexing with a missing key) instead of returning the
generic `InvalidData`/"could not find property" error. -/
theorem c1_counterexample :
    attach_info_decode (some c1Plist) = .panic ∧
    attach_info_decode (some c1Plist) ≠ .err .InvalidData "could not find property" := by
  refine ⟨rfl, ?_⟩
  decide

/-- Claim C1 as amended: when the scan reaches the first entity carrying a
`mount-point` key (every earlier entity being a dictionary without one) and
that entity's `mount-point` value is a string but its `dev-entry` key is
absent, the decoder panics rather than returning any error value. -/
theorem c1_missing_dev_entry_panics (root props : Dictionary) (pre rest : List Value)
    (mp : String)
    (hpre : ∀ e ∈ pre, ∃ d, e = Value.dict d ∧ dictGet d "mount-point" = none)
    (hse : dictGet root "system-entities" = some (.array (pre ++ Value.dict props :: rest)))
    (hmp : dictGet props "mount-point" = some (.string mp))
    (hdev : dictGet props "dev-entry" = none) :
    attach_info_decode (some (.dict root)) = .panic := by
  simp only [attach_info_decode, Value.as_dictionary, hse, Value.as_array]
  rw [findInfo_skip pre _ hpre]
  simp only [findInfo, Value.as_dictionary, hmp, Value.as_string, hdev]

/-- Witness for the amended C1 at a concrete two-entity response. -/
theorem c1_missing_dev_entry_panics_witness :
    attach_info_decode (some (.dict [("system-entities", .array
      [Value.dict [("content-hint", .string "GUID_partition_scheme")],
       Value.dict [("mount-point", .string "/Volumes/Test")]])])) = .panic :=
  c1_missing_dev_entry_panics
    [("system-entities", .array
      [Value.dict [("content-hint", .string "GUID_partition_scheme")],
       Value.dict [("mount-point", .string "/Volumes/Test")]])]
    [("mount-point", .string "/Volumes/Test")]
    [Value.dict [("content-hint", .string "GUID_partition_scheme")]]
    []
    "/Volumes/Test"
    (by intro e he; rw [List.mem_singleton] at he; exact ⟨_, he, rfl⟩)
    rfl rfl rfl

/-- Claim C2 counterexample: `detach` suppresses the child's stderr
(`Stdio::null()`) and, on non-zero exit status, returns the fixed
`Other`/"non-zero exit status for detach" error; in particular a stderr
text such as "boom" never appears in that message. -/
theorem c2_counterexample :
    detach_run false = .err .Other "non-zero exit status for detach" ∧
    ¬ ("boom".data <:+: "non-zero exit status for detach".data) := by
  refine ⟨rfl, ?_⟩
  decide

/-- Claim C2 as amended: on non-zero exit status, attach and create return
an `Other` error whose message is "hdiutil attach failed: "/"hdiutil create
failed: " followed by the stderr decoded as text, and an `Other` error
carrying the UTF-8 error's own text when the stderr bytes are not valid
text; detach discards stderr and returns the fixed
"non-zero exit status for detach" error. -/
theorem c2_exit_errors :
    (∀ stderrText o, attach_info_run ⟨false, .valid stderrText, o⟩ =
        .err .Other ("hdiutil attach failed: " ++ stderrText)) ∧
    (∀ emsg o, attach_info_run ⟨false, .invalid emsg, o⟩ = .err .Other emsg) ∧
    (∀ stderrText o, create_run ⟨false, .valid stderrText, o⟩ =
        .err .Other ("hdiutil create failed: " ++ stderrText)) ∧
    (∀ emsg o, create_run ⟨false, .invalid emsg, o⟩ = .err .Other emsg) ∧
    detach_run false = .err .Other "non-zero exit status for detach" :=
  ⟨fun _ _ => rfl, fun _ _ => rfl, fun _ _ => rfl, fun _ _ => rfl, rfl⟩

/-- Claim C4 counterexample: the default builder (`Attach::new`, mount
strategy `Mount::Default`) renders an argument list containing zero
mount-strategy flags, not exactly one. -/
theorem c4_counterexample :
    mountFlagCount (Attach.new "image.dmg").attachArgs = 0 ∧
    mountFlagCount (Attach.new "image.dmg").attachArgs ≠ 1 := by
  refine ⟨?_, ?_⟩ <;> decide

/-- Claim C4 as amended: provided neither the image path nor the mount path
is itself one of the three flag tokens, the rendered attach argument list
contains exactly one mount-strategy flag when the strategy is `Random`,
`Root` or `Point`, and zero when it is `Default` (never two). -/
theorem c4_mount_flag_count (a : Attach)
    (himg : isMountFlag a.image = false)
    (hpath : mountPathOk a.mount) :
    mountFlagCount a.attachArgs =
      match a.mount with
      | .Default => 0
      | _ => 1 := by
  obtain ⟨img, mnt, hid, fr⟩ := a
  simp only [Attach.attachArgs, mountFlagCount] at *
  cases mnt <;> cases hid <;> cases fr <;>
    simp_all [mountPathOk, List.countP_append, List.countP_cons, List.countP_nil,
      isMountFlag_attach, isMountFlag_readonly, isMountFlag_nobrowse, isMountFlag_plist,
      isMountFlag_mountrandom, isMountFlag_mountroot, isMountFlag_mountpoint]

/-- Witness for the amended C4 at a concrete random-mount builder. -/
theorem c4_mount_flag_count_witness :
    mountFlagCount ((Attach.new "image.dmg").mount_random "/tmp").attachArgs = 1 :=
  c4_mount_flag_count ((Attach.new "image.dmg").mount_random "/tmp") rfl rfl

/-- Claim C5 counterexample: on a response whose `system-entities` array is
empty, the decoder returns the `Other`/"could not extract data" error,
which is not the generic `InvalidData`/"could not find property" error
yielded for missing keys and wrong value types. -/
theorem c5_counterexample :
    attach_info_decode (some c5Plist) = .err .Other "could not extract data" ∧
    attach_info_decode (some c5Plist) ≠ .err .InvalidData "could not find property" := by
  refine ⟨rfl, ?_⟩
  decide

/-- Claim C5 as amended: a non-mapping root, a missing `system-entities`
key, or a `system-entities` value that is not a sequence each yield the
generic `InvalidData`/"could not find property" error, but an empty or
no-matching-entity sequence (every entity a mapping without a `mount-point`
key) yields the distinct `Other`/"could not extract data" error. -/
theorem c5_error_cases :
    (∀ s, attach_info_decode (some (.string s)) =
        .err .InvalidData "could not find property") ∧
    (∀ root : Dictionary, dictGet root "system-entities" = none →
      attach_info_decode (some (.dict root)) =
        .err .InvalidData "could not find property") ∧
    (∀ (root : Dictionary) (v : Value), dictGet root "system-entities" = some v →
      v.as_array = none →
      attach_info_decode (some (.dict root)) =
        .err .InvalidData "could not find property") ∧
    (∀ (root : Dictionary) (entities : List Value),
      dictGet root "system-entities" = some (.array entities) →
      (∀ e ∈ entities, ∃ d, e = Value.dict d ∧ dictGet d "mount-point" = none) →
      attach_info_decode (some (.dict root)) =
        .err .Other "could not extract data") := by
  refine ⟨fun s => rfl, ?_, ?_, ?_⟩
  · intro root hse
    simp only [attach_info_decode, Value.as_dictionary, hse]
  · intro root v hse hv
    simp only [attach_info_decode, Value.as_dictionary, hse, hv]
  · intro root entities hse hent
    simp only [attach_info_decode, Value.as_dictionary, hse, Value.as_array]
    have hskip := findInfo_skip entities [] hent
    rw [List.append_nil] at hskip
    rw [hskip]
    rfl

/-- Witness for the amended C5: a sequence with one mapping lacking a
`mount-point` key yields "could not extract data". -/
theorem c5_error_cases_witness :
    attach_info_decode (some (.dict [("system-entities", .array
      [Value.dict [("dev-entry", .string "/dev/disk4")]])])) =
      .err .Other "could not extract data" :=
  c5_error_cases.2.2.2
    [("system-entities", .array [Value.dict [("dev-entry", .string "/dev/disk4")]])]
    [Value.dict [("dev-entry", .string "/dev/disk4")]]
    rfl
    (by intro e he; rw [List.mem_singleton] at he; exact ⟨_, he, rfl⟩)

/-- Claim C6 counterexample: on a response whose `system-entities` array
holds a scalar followed by a mapping with both `mount-point` and
`dev-entry`, the decoder stops at the scalar with the
`InvalidData`/"could not find property" error instead of returning the
`Info` of the first mapping that has a `mount-point` key. -/
theorem c6_counterexample :
    attach_info_decode (some c6Plist) = .err .InvalidData "could not find property" ∧
    attach_info_decode (some c6Plist) ≠ .ok ⟨"/Volumes/Test", "/dev/disk4"⟩ := by
  refine ⟨rfl, ?_⟩
  decide

/-- Claim C6 as amended: the decoder scans `system-entities` in order and
additionally requires every element before the first `mount-point`-bearing
one to be a mapping; when those earlier elements are mappings without a
`mount-point` key and the first matching element carries string
`mount-point` and `dev-entry` values, it returns that element's data as the
`Info`. -/
theorem c6_first_matching_entity (root props : Dictionary) (pre rest : List Value)
    (mp dev : String)
    (hpre : ∀ e ∈ pre, ∃ d, e = Value.dict d ∧ dictGet d "mount-point" = none)
    (hse : dictGet root "system-entities" = some (.array (pre ++ Value.dict props :: rest)))
    (hmp : dictGet props "mount-point" = some (.string mp))
    (hdev : dictGet props "dev-entry" = some (.string dev)) :
    attach_info_decode (some (.dict root)) = .ok ⟨mp, dev⟩ := by
  simp only [attach_info_decode, Value.as_dictionary, hse, Value.as_array]
  rw [findInfo_skip pre _ hpre]
  simp only [findInfo, Value.as_dictionary, hmp, Value.as_string, hdev]

/-- Witness for the amended C6 at a concrete two-entity response. -/
theorem c6_first_matching_entity_witness :
    attach_info_decode (some (.dict [("system-entities", .array
      [Value.dict [("content-hint", .string "GUID_partition_scheme")],
       Value.dict [("mount-point", .string "/Volumes/Test"),
                   ("dev-entry", .string "/dev/disk4")]])])) =
      .ok ⟨"/Volumes/Test", "/dev/disk4"⟩ :=
  c6_first_matching_entity
    [("system-entities", .array
      [Value.dict [("content-hint", .string "GUID_partition_scheme")],
       Value.dict [("mount-point", .string "/Volumes/Test"),
                   ("dev-entry", .string "/dev/disk4")]])]
    [("mount-point", .string "/Volumes/Test"), ("dev-entry", .string "/dev/disk4")]
    [Value.dict [("content-hint", .string "GUID_partition_scheme")]]
    []
    "/Volumes/Test"
    "/dev/disk4"
    (by intro e he; rw [List.mem_singleton] at he; exact ⟨_, he, rfl⟩)
    rfl rfl rfl

end Dmg
